import Mathlib

/-!
Verification of the row-based order-entry validation engine of
`add-order-modal.component.ts` (Angular, TypeScript).

Shallow embedding conventions:

* Field values bound from the form inputs (`barcode`, `quantity`, `mrp`) are
  modelled as the raw input strings.  The numeric literals `1` and `0` of the
  source's default row `{ barcode: '', quantity: 1, mrp: 0 }` are represented
  by their canonical string forms `"1"` and `"0"`; every operation the
  component applies to these values (`Number(x)`, `x.toString()`,
  truthiness, comparison) yields the same observable outcome on `"1"`/`"0"`
  as on the numbers `1`/`0`.
* JavaScript numbers produced by `Number(...)` / `parseFloat(...)` are
  modelled exactly as `NaN`, `±Infinity`, or a decimal rational given by an
  integer mantissa `man` and a power-of-ten denominator `10 ^ exp10`
  (value `man / 10 ^ exp10`).  This is exact arithmetic: the model does not
  reproduce IEEE-754 rounding or overflow to infinity, which only diverges
  from the source for magnitudes ≥ 1e309 or more than 17 significant
  digits — far outside every bound (999999) checked by the component.
* `String.prototype.trim` / `toLowerCase` are modelled on character lists
  (`jsTrim`, `jsToLower`); claims only exercise ASCII data.
* Toast messages (`toastService.showSuccess/showError`) and the HTTP layer
  are external collaborators; the observable async contract of
  `orderService.validateBarcode(...).pipe(takeUntil(this.destroy$)).subscribe`
  is modelled by an explicit list of in-flight requests plus resolution
  events, with `takeUntil(destroy$)` rendered as the `destroyed` guard.
-/

/-- Result of a JavaScript numeric conversion: `NaN`, `±Infinity`, or the
exact decimal value `man / 10 ^ exp10`. -/
inductive JSNum where
  | nan : JSNum
  | inf (isPos : Bool) : JSNum
  | num (man : Int) (exp10 : Nat) : JSNum
deriving DecidableEq, Repr

/-- JavaScript string whitespace (the ASCII part plus NBSP), as trimmed by
`String.prototype.trim` and skipped by `parseFloat` / `Number`. -/
def jsWs (c : Char) : Bool :=
  c = ' ' || c = '\t' || c = '\n' || c = '\r' || c = '\x0b' || c = '\x0c' || c = ' '

/-- Trim `jsWs` from both ends of a character list. -/
def trimChars (l : List Char) : List Char :=
  ((l.dropWhile jsWs).reverse.dropWhile jsWs).reverse

/-- Model of `String.prototype.trim`. -/
def jsTrim (s : String) : String := ⟨trimChars s.data⟩

/-- Model of `String.prototype.toLowerCase` (ASCII case folding). -/
def jsToLower (s : String) : String := ⟨s.data.map Char.toLower⟩

/-- Numeric value of a list of decimal digits (most significant first). -/
def natOfDigits (l : List Char) : Nat :=
  l.foldl (fun a c => 10 * a + (c.toNat - 48)) 0

/-- Nonempty and all decimal digits. -/
def allDigits (l : List Char) : Bool := !(l.isEmpty) && l.all (·.isDigit)

def isHexDigit (c : Char) : Bool :=
  c.isDigit || ('a' ≤ c && c ≤ 'f') || ('A' ≤ c && c ≤ 'F')

def hexDigitVal (c : Char) : Nat :=
  if c.isDigit then c.toNat - 48
  else if 'a' ≤ c && c ≤ 'f' then c.toNat - 87
  else c.toNat - 55

def natOfHexDigits (l : List Char) : Nat :=
  l.foldl (fun a c => 16 * a + hexDigitVal c) 0

def isBinDigit (c : Char) : Bool := c = '0' || c = '1'

def isOctDigit (c : Char) : Bool := '0' ≤ c && c ≤ '7'

def natOfBinDigits (l : List Char) : Nat :=
  l.foldl (fun a c => 2 * a + (c.toNat - 48)) 0

def natOfOctDigits (l : List Char) : Nat :=
  l.foldl (fun a c => 8 * a + (c.toNat - 48)) 0

/-- Parse a full `DecimalLiteral` mantissa (no sign, no exponent):
`digits`, `digits.`, `digits.digits` or `.digits`.  Returns the mantissa as
an integer together with the number of fractional digits, or `none` when the
list is not such a literal. -/
def parseMantissa (l : List Char) : Option (Nat × Nat) :=
  let ip := l.takeWhile (·.isDigit)
  let rest := l.dropWhile (·.isDigit)
  match rest with
  | [] => if ip.isEmpty then none else some (natOfDigits ip, 0)
  | '.' :: fp =>
      if fp.all (·.isDigit) && !(ip.isEmpty && fp.isEmpty) then
        some (natOfDigits ip * 10 ^ fp.length + natOfDigits fp, fp.length)
      else none
  | _ => none

/-- Split a character list at the first exponent marker `e`/`E`. -/
def splitExp (l : List Char) : List Char × Option (List Char) :=
  let m := l.takeWhile (fun c => !(c = 'e' || c = 'E'))
  match l.dropWhile (fun c => !(c = 'e' || c = 'E')) with
  | [] => (m, none)
  | _ :: rest => (m, some rest)

/-- Parse `[+|-]? digits` as an integer (used for exponent parts). -/
def parseSignedDigits (l : List Char) : Option Int :=
  match l with
  | '+' :: d => if allDigits d then some (natOfDigits d) else none
  | '-' :: d => if allDigits d then some (-(natOfDigits d : Int)) else none
  | d => if allDigits d then some (natOfDigits d) else none

/-- Combine a mantissa `man / 10 ^ exp10` with a decimal exponent `e`. -/
def applyExponent (man : Int) (exp10 : Nat) (e : Int) : JSNum :=
  let d : Int := e - exp10
  if 0 ≤ d then .num (man * 10 ^ d.toNat) 0 else .num man (-d).toNat

/-- Parse an unsigned `StrDecimalLiteral` body (mantissa with optional
exponent part); the whole list must be consumed. -/
def parseDecFull (sgn : Int) (l : List Char) : JSNum :=
  match splitExp l with
  | (m, eo) =>
    match parseMantissa m with
    | none => .nan
    | some (man, exp10) =>
      match eo with
      | none => .num (sgn * man) exp10
      | some e =>
        match parseSignedDigits e with
        | none => .nan
        | some ev => applyExponent (sgn * man) exp10 ev

def infinityChars : List Char := ['I', 'n', 'f', 'i', 'n', 'i', 't', 'y']

/-- Parse a signed decimal part: `Infinity` or a `StrDecimalLiteral`. -/
def parseSignedPart (sgn : Int) (l : List Char) : JSNum :=
  if l = infinityChars then .inf (decide (0 < sgn)) else parseDecFull sgn l

/-- `Number(s)` on an already-trimmed character list: empty ↦ 0,
`0x`/`0o`/`0b` radix literals (unsigned), otherwise an optionally signed
decimal literal or `Infinity`; anything else is `NaN`. -/
def jsToNumberTrimmed (t : List Char) : JSNum :=
  match t with
  | [] => .num 0 0
  | '0' :: 'x' :: r => if !(r.isEmpty) && r.all isHexDigit then .num (natOfHexDigits r) 0 else .nan
  | '0' :: 'X' :: r => if !(r.isEmpty) && r.all isHexDigit then .num (natOfHexDigits r) 0 else .nan
  | '0' :: 'o' :: r => if !(r.isEmpty) && r.all isOctDigit then .num (natOfOctDigits r) 0 else .nan
  | '0' :: 'O' :: r => if !(r.isEmpty) && r.all isOctDigit then .num (natOfOctDigits r) 0 else .nan
  | '0' :: 'b' :: r => if !(r.isEmpty) && r.all isBinDigit then .num (natOfBinDigits r) 0 else .nan
  | '0' :: 'B' :: r => if !(r.isEmpty) && r.all isBinDigit then .num (natOfBinDigits r) 0 else .nan
  | '+' :: r => parseSignedPart 1 r
  | '-' :: r => parseSignedPart (-1) r
  | r => parseSignedPart 1 r

/-- Model of JavaScript `Number(s)` for a string argument. -/
def jsToNumberStr (s : String) : JSNum := jsToNumberTrimmed (trimChars s.data)

/-- Greedy exponent suffix used by `parseFloat`: consumes `e`/`E` followed by
an optional sign and a longest digit run; yields exponent 0 when the suffix
is not well formed (the suffix is then simply not part of the number). -/
def parseFloatExp (l : List Char) : Int :=
  match l with
  | c :: t =>
    if c = 'e' || c = 'E' then
      match t with
      | '+' :: d => if (d.takeWhile (·.isDigit)).isEmpty then 0 else (natOfDigits (d.takeWhile (·.isDigit)) : Int)
      | '-' :: d => if (d.takeWhile (·.isDigit)).isEmpty then 0 else -(natOfDigits (d.takeWhile (·.isDigit)) : Int)
      | d => if (d.takeWhile (·.isDigit)).isEmpty then 0 else (natOfDigits (d.takeWhile (·.isDigit)) : Int)
    else 0
  | [] => 0

/-- Model of JavaScript `parseFloat(s)`: skip leading whitespace, then parse
the longest prefix that is a signed `Infinity` or decimal literal; `NaN`
when no prefix parses. -/
def jsParseFloat (s : String) : JSNum :=
  let l := s.data.dropWhile jsWs
  let sgn : Int := match l with | '-' :: _ => -1 | _ => 1
  let r := match l with | '+' :: t => t | '-' :: t => t | t => t
  if infinityChars.isPrefixOf r then .inf (decide (0 < sgn))
  else
    let ip := r.takeWhile (·.isDigit)
    let r1 := r.dropWhile (·.isDigit)
    let fp := match r1 with | '.' :: t => t.takeWhile (·.isDigit) | _ => []
    let r2 := match r1 with | '.' :: t => t.dropWhile (·.isDigit) | _ => r1
    if ip.isEmpty && fp.isEmpty then .nan
    else
      let man : Int := sgn * (natOfDigits ip * 10 ^ fp.length + natOfDigits fp)
      applyExponent man fp.length (parseFloatExp r2)

/-- JavaScript `isNaN` on a conversion result. -/
def jsIsNaN : JSNum → Bool
  | .nan => true
  | _ => false

/-- JavaScript `Number.isInteger`. -/
def jsIsInteger : JSNum → Bool
  | .num m e => m % ((10 : Int) ^ e) == 0
  | _ => false

/-- JavaScript `x <= c` for an integer literal bound `c` (false on `NaN`). -/
def jsLeInt : JSNum → Int → Bool
  | .nan, _ => false
  | .inf b, _ => !b
  | .num m e, c => decide (m ≤ c * 10 ^ e)

/-- JavaScript `x > c` for an integer literal bound `c` (false on `NaN`). -/
def jsGtInt : JSNum → Int → Bool
  | .nan, _ => false
  | .inf b, _ => b
  | .num m e, c => decide (c * 10 ^ e < m)

/-- `isValidNumber` (source lines 473–482): non-empty and non-blank, no
scientific-notation marker, and `parseFloat` yields a finite number. -/
def isValidNumber (v : String) : Bool :=
  if v = "" || jsTrim v = "" then false
  else if v.data.any (fun c => c = 'e' || c = 'E') then false
  else match jsParseFloat v with
    | .num _ _ => true
    | _ => false

/-- Quantity branch of `validateField` (source lines 385–394): the recorded
error message, or `none` when the value is accepted. -/
def validateFieldQuantity (v : String) : Option String :=
  let q := jsToNumberStr v
  if v = "" || jsIsNaN q || jsLeInt q 0 || !(jsIsInteger q) || !(isValidNumber v) then
    some "Quantity must be a positive whole number"
  else if jsGtInt q 999999 then some "Quantity cannot exceed 999,999"
  else none

/-- MRP branch of `validateField` (source lines 395–404): the recorded error
message, or `none` when the value is accepted. -/
def validateFieldMrp (v : String) : Option String :=
  let q := jsToNumberStr v
  if v = "" || jsIsNaN q || jsLeInt q 0 || !(isValidNumber v) then
    some "MRP must be a positive number"
  else if jsGtInt q 999999 then some "MRP cannot exceed 999,999"
  else none


/-- One order row (`OrderItemForm`): barcode, quantity and MRP as bound by
the form inputs. -/
structure OrderItemForm where
  barcode : String
  quantity : String
  mrp : String
deriving DecidableEq, Repr

/-- One in-flight `validateBarcode` subscription created by `onBarcodeBlur`:
its issue order (`rid`), the row index captured by the closure, and the
trimmed barcode sent to the service. -/
structure PendingReq where
  rid : Nat
  index : Nat
  barcode : String
deriving DecidableEq, Repr

/-- The snapshot written to localStorage by `saveToStorage` (source lines
82–93). -/
structure Draft where
  orderItems : List OrderItemForm
  barcodeValidationState : Nat → Option String
  validatedBarcodes : Nat → Option Bool

/-- Per-field, per-row error map (`fieldErrors`). -/
def FieldErrs : Type := String → Nat → Option String

def emptyErrs : FieldErrs := fun _ _ => none

/-- `setFieldError` (source lines 248–253). -/
def setFieldError (fe : FieldErrs) (fieldName : String) (index : Nat) (msg : String) : FieldErrs :=
  fun f j => if f = fieldName && j == index then some msg else fe f j

/-- `clearFieldError` (source lines 489–493). -/
def clearFieldError (fe : FieldErrs) (fieldName : String) (index : Nat) : FieldErrs :=
  fun f j => if f = fieldName && j == index then none else fe f j

/-- `hasFieldError` (source lines 261–263). -/
def hasFieldError (fe : FieldErrs) (fieldName : String) (index : Nat) : Bool :=
  (fe fieldName index).isSome

/-- Component state of `AddOrderModalComponent`, together with the
observable history needed by the claims: the list of in-flight barcode
checks, the `orderCreated` emissions, and the `showChange` events. -/
structure ModalState where
  orderItems : List OrderItemForm
  barcodeValidationState : Nat → Option String
  validatedBarcodes : Nat → Option Bool
  fieldErrors : FieldErrs
  showError : Bool
  errorMessage : String
  storage : Option Draft
  destroyed : Bool
  pending : List PendingReq
  nextReqId : Nat
  emitted : List (List OrderItemForm)
  showChangeEvents : List Bool

/-- The default row `{ barcode: '', quantity: 1, mrp: 0 }`. -/
def defaultOrderItem : OrderItemForm := ⟨"", "1", "0"⟩

/-- The validation-state dictionary `{ 0: 'pending' }`. -/
def initialValidationState : Nat → Option String :=
  fun k => if k = 0 then some "pending" else none

/-- The dictionary `{ 0: false }`. -/
def initialValidatedBarcodes : Nat → Option Bool :=
  fun k => if k = 0 then some false else none

/-- `saveToStorage` (source lines 82–93): overwrite the stored draft with
the current rows and validation dictionaries. -/
def saveToStorage (s : ModalState) : ModalState :=
  { s with storage := some ⟨s.orderItems, s.barcodeValidationState, s.validatedBarcodes⟩ }

/-- The draft written right after `resetForm`. -/
def resetDraft : Draft :=
  ⟨[defaultOrderItem], initialValidationState, initialValidatedBarcodes⟩

/-- `findDuplicateBarcode` (source lines 344–349): index of the first other
row whose trimmed, case-folded barcode equals the given (already trimmed)
barcode, case-folded; `-1` when there is none. -/
def findDuplicateBarcode (items : List OrderItemForm) (barcode : String) (currentIndex : Nat) : Int :=
  match items.enum.find? (fun p =>
      !(p.1 == currentIndex) && (jsToLower (jsTrim p.2.barcode) == jsToLower barcode)) with
  | some p => (p.1 : Int)
  | none => -1

/-- Duplicate-error message `Duplicate barcode found at row ${i + 1}`. -/
def dupMsg (duplicateIndex : Int) : String :=
  "Duplicate barcode found at row " ++ toString (duplicateIndex + 1)

/-- Not-found message `Product with barcode: ${barcode} not found`. -/
def notFoundMsg (barcode : String) : String :=
  "Product with barcode: " ++ barcode ++ " not found"

/-- Per-row body of `validateForm` (source lines 150–180): fold one row's
checks into the error map and running validity flag.  `validateForm` uses
its own field rules: no upper bounds, no `isValidNumber`, and no look at
`barcodeValidationState`. -/
def validateFormRow (items : List OrderItemForm) (acc : FieldErrs × Bool) (p : Nat × OrderItemForm) : FieldErrs × Bool :=
  let index := p.1
  let item := p.2
  let acc1 :=
    if jsTrim item.barcode = "" then
      (setFieldError acc.1 "barcode" index "Barcode cannot be empty", false)
    else if 50 < (jsTrim item.barcode).data.length then
      (setFieldError acc.1 "barcode" index "Barcode cannot exceed 50 characters", false)
    else
      let duplicateIndex := findDuplicateBarcode items (jsTrim item.barcode) index
      if duplicateIndex ≠ -1 then
        (setFieldError acc.1 "barcode" index (dupMsg duplicateIndex), false)
      else acc
  let q := jsToNumberStr item.quantity
  let acc2 :=
    if item.quantity = "" || jsIsNaN q || jsLeInt q 0 || !(jsIsInteger q) then
      (setFieldError acc1.1 "quantity" index "Quantity must be a positive whole number", false)
    else acc1
  let m := jsToNumberStr item.mrp
  if item.mrp = "" || jsIsNaN m || jsLeInt m 0 then
    (setFieldError acc2.1 "mrp" index "MRP must be a positive number", false)
  else acc2

/-- `validateForm` (source lines 146–183): starts from `clearErrors`, folds
every row, and returns the rebuilt error map together with the validity
flag. -/
def validateFormCheck (items : List OrderItemForm) : FieldErrs × Bool :=
  items.enum.foldl (validateFormRow items) (emptyErrs, true)

/-- `resetForm` (source lines 225–231). -/
def resetForm (s : ModalState) : ModalState :=
  saveToStorage { s with
    orderItems := [defaultOrderItem]
    barcodeValidationState := initialValidationState
    validatedBarcodes := initialValidatedBarcodes
    fieldErrors := emptyErrs
    showError := false
    errorMessage := "" }

/-- `closeModal` (source lines 207–210): emit `showChange(false)` and reset. -/
def closeModal (s : ModalState) : ModalState :=
  resetForm { s with showChangeEvents := s.showChangeEvents ++ [false] }

/-- `onBackdropClick` (source lines 216–220): closes only when the click
target is the backdrop itself. -/
def onBackdropClick (s : ModalState) (targetIsBackdrop : Bool) : ModalState :=
  if targetIsBackdrop then closeModal s else s

/-- The trimmed copy emitted by `onSubmit` (source lines 191–195). -/
def cleanOrderItems (items : List OrderItemForm) : List OrderItemForm :=
  items.map fun item => ⟨jsTrim item.barcode, item.quantity, item.mrp⟩

/-- `onSubmit` (source lines 188–202): run `validateForm`; when it passes,
emit the trimmed rows on `orderCreated` and close (which resets and saves);
when it fails, only the rebuilt field errors remain (plus an error toast,
not modelled). -/
def onSubmit (s : ModalState) : ModalState :=
  let pr := validateFormCheck s.orderItems
  let s1 := { s with fieldErrors := pr.1, showError := false, errorMessage := "" }
  if pr.2 then
    closeModal { s1 with emitted := s1.emitted ++ [cleanOrderItems s.orderItems] }
  else s1

/-- `addOrderItem` (source lines 98–105). -/
def addOrderItem (s : ModalState) : ModalState :=
  let newIndex := s.orderItems.length
  saveToStorage { s with
    orderItems := s.orderItems ++ [defaultOrderItem]
    barcodeValidationState := fun k =>
      if k = newIndex then some "pending" else s.barcodeValidationState k
    validatedBarcodes := fun k =>
      if k = newIndex then some false else s.validatedBarcodes k }

/-- `removeOrderItem` (source lines 111–140): guarded by `length > 1`;
splices the row out, deletes its dictionary entries and shifts every
later-indexed entry down by one, re-runs `validateForm`, and saves.  The
in-flight request list is untouched (the source performs no
unsubscription here). -/
def removeOrderItem (s : ModalState) (index : Nat) : ModalState :=
  if 1 < s.orderItems.length then
    let items := s.orderItems.take index ++ s.orderItems.drop (index + 1)
    let pr := validateFormCheck items
    saveToStorage { s with
      orderItems := items
      barcodeValidationState := fun k =>
        if k < index then s.barcodeValidationState k else s.barcodeValidationState (k + 1)
      validatedBarcodes := fun k =>
        if k < index then s.validatedBarcodes k else s.validatedBarcodes (k + 1)
      fieldErrors := pr.1
      showError := false
      errorMessage := "" }
  else s

/-- `onBarcodeBlur` (source lines 279–336): empty trimmed barcode resets the
row to pending; a duplicate marks it invalid; otherwise the row enters
`checking` and one `validateBarcode` request is issued (the `checking`
branch does not save).  Out-of-range indices throw in the source before any
mutation, hence are a state no-op. -/
def onBarcodeBlur (s : ModalState) (index : Nat) : ModalState :=
  match s.orderItems.get? index with
  | none => s
  | some item =>
    let barcode := jsTrim item.barcode
    if barcode = "" then
      saveToStorage { s with
        barcodeValidationState := fun k =>
          if k = index then some "pending" else s.barcodeValidationState k
        validatedBarcodes := fun k =>
          if k = index then some false else s.validatedBarcodes k
        fieldErrors := clearFieldError s.fieldErrors "barcode" index }
    else
      let duplicateIndex := findDuplicateBarcode s.orderItems barcode index
      if duplicateIndex ≠ -1 then
        saveToStorage { s with
          barcodeValidationState := fun k =>
            if k = index then some "invalid" else s.barcodeValidationState k
          validatedBarcodes := fun k =>
            if k = index then some false else s.validatedBarcodes k
          fieldErrors := setFieldError s.fieldErrors "barcode" index (dupMsg duplicateIndex) }
      else
        { s with
          barcodeValidationState := fun k =>
            if k = index then some "checking" else s.barcodeValidationState k
          fieldErrors := clearFieldError s.fieldErrors "barcode" index
          pending := s.pending ++ [⟨s.nextReqId, index, barcode⟩]
          nextReqId := s.nextReqId + 1 }

/-- Outcome of a `validateBarcode` request: `next(true)`, `next(false)`, or
the error callback with an optional backend message. -/
inductive ReqOutcome where
  | success (isValid : Bool) : ReqOutcome
  | failure (msg : Option String) : ReqOutcome
deriving DecidableEq, Repr

/-- The subscribe callbacks of `onBarcodeBlur` (source lines 305–335),
fired when the request with id `rid` resolves.  `takeUntil(this.destroy$)`
drops the resolution after `ngOnDestroy`.  Nothing else gates it: the
handler writes to the row index captured at issue time. -/
def resolveRequest (s : ModalState) (rid : Nat) (outcome : ReqOutcome) : ModalState :=
  match s.pending.find? (fun r => r.rid == rid) with
  | none => s
  | some req =>
    let s0 := { s with pending := s.pending.filter (fun r => !(r.rid == rid)) }
    if s.destroyed then s0
    else
      match outcome with
      | .success true =>
        saveToStorage { s0 with
          barcodeValidationState := fun k =>
            if k = req.index then some "valid" else s.barcodeValidationState k
          validatedBarcodes := fun k =>
            if k = req.index then some true else s.validatedBarcodes k
          fieldErrors := clearFieldError s.fieldErrors "barcode" req.index }
      | .success false =>
        saveToStorage { s0 with
          barcodeValidationState := fun k =>
            if k = req.index then some "invalid" else s.barcodeValidationState k
          validatedBarcodes := fun k =>
            if k = req.index then some false else s.validatedBarcodes k
          fieldErrors := setFieldError s.fieldErrors "barcode" req.index (notFoundMsg req.barcode) }
      | .failure msg =>
        let errorMessage := match msg with | some m => m | none => notFoundMsg req.barcode
        saveToStorage { s0 with
          barcodeValidationState := fun k =>
            if k = req.index then some "invalid" else s.barcodeValidationState k
          validatedBarcodes := fun k =>
            if k = req.index then some false else s.validatedBarcodes k
          fieldErrors := setFieldError s.fieldErrors "barcode" req.index errorMessage }

/-- `onBarcodeInput` (source lines 355–374): recompute only the edited
row's duplicate error; the validation-state dictionaries and the in-flight
requests are untouched. -/
def onBarcodeInput (s : ModalState) (index : Nat) : ModalState :=
  match s.orderItems.get? index with
  | none => s
  | some item =>
    let barcode := jsTrim item.barcode
    if barcode = "" then
      saveToStorage { s with fieldErrors := clearFieldError s.fieldErrors "barcode" index }
    else
      let duplicateIndex := findDuplicateBarcode s.orderItems barcode index
      if duplicateIndex ≠ -1 then
        saveToStorage { s with fieldErrors := setFieldError s.fieldErrors "barcode" index (dupMsg duplicateIndex) }
      else
        saveToStorage { s with fieldErrors := clearFieldError s.fieldErrors "barcode" index }

/-- `validateField` (source lines 381–407) on the row at `index`. -/
def validateField (s : ModalState) (fieldName : String) (index : Nat) : ModalState :=
  match s.orderItems.get? index with
  | none => s
  | some item =>
    if fieldName = "quantity" then
      saveToStorage { s with fieldErrors :=
        match validateFieldQuantity item.quantity with
        | some msg => setFieldError s.fieldErrors "quantity" index msg
        | none => clearFieldError s.fieldErrors "quantity" index }
    else if fieldName = "mrp" then
      saveToStorage { s with fieldErrors :=
        match validateFieldMrp item.mrp with
        | some msg => setFieldError s.fieldErrors "mrp" index msg
        | none => clearFieldError s.fieldErrors "mrp" index }
    else saveToStorage s

/-- `ngOnDestroy` (source lines 57–60): `destroy$` fires, which makes every
outstanding subscription resolve into nothing from then on. -/
def ngOnDestroy (s : ModalState) : ModalState := { s with destroyed := true }

/-- `isFormValid` (source lines 535–554): shape rules, `isValidNumber` on
both numeric fields, absence of recorded field errors, and
`barcodeValidationState[index] === 'valid'`, for every row. -/
def isFormValid (s : ModalState) : Bool :=
  s.orderItems.enum.all fun p =>
    let item := p.2
    let q := jsToNumberStr item.quantity
    let m := jsToNumberStr item.mrp
    !(jsTrim item.barcode == "") &&
    (jsTrim item.barcode).data.length ≤ 50 &&
    jsGtInt q 0 &&
    jsIsInteger q &&
    jsLeInt q 999999 &&
    jsGtInt m 0 &&
    jsLeInt m 999999 &&
    isValidNumber item.quantity &&
    isValidNumber item.mrp &&
    !(hasFieldError s.fieldErrors "barcode" p.1) &&
    !(hasFieldError s.fieldErrors "quantity" p.1) &&
    !(hasFieldError s.fieldErrors "mrp" p.1) &&
    (s.barcodeValidationState p.1 == some "valid")

/-- Fresh component state after the constructor and `ngOnInit` (source
lines 50–55): first row's dictionaries initialised, then `loadFromStorage`
replaces rows and dictionaries with the stored draft when one exists. -/
def ngOnInitState (storage : Option Draft) : ModalState :=
  let base : ModalState :=
    { orderItems := [defaultOrderItem]
      barcodeValidationState := initialValidationState
      validatedBarcodes := initialValidatedBarcodes
      fieldErrors := emptyErrs
      showError := false
      errorMessage := ""
      storage := storage
      destroyed := false
      pending := []
      nextReqId := 0
      emitted := []
      showChangeEvents := [] }
  match storage with
  | none => base
  | some d =>
    { base with
      orderItems := d.orderItems
      barcodeValidationState := d.barcodeValidationState
      validatedBarcodes := d.validatedBarcodes }

/-- The mount state with no stored draft. -/
def initState : ModalState := ngOnInitState none

/-- Set the barcode of row `index` (the `[(ngModel)]` write that precedes
the `(input)` handler). -/
def setBarcode (s : ModalState) (index : Nat) (v : String) : ModalState :=
  match s.orderItems.get? index with
  | some item => { s with orderItems := s.orderItems.set index ⟨v, item.quantity, item.mrp⟩ }
  | none => s

/-- Set the quantity of row `index`. -/
def setQuantity (s : ModalState) (index : Nat) (v : String) : ModalState :=
  match s.orderItems.get? index with
  | some item => { s with orderItems := s.orderItems.set index ⟨item.barcode, v, item.mrp⟩ }
  | none => s

/-- Set the MRP of row `index`. -/
def setMrp (s : ModalState) (index : Nat) (v : String) : ModalState :=
  match s.orderItems.get? index with
  | some item => { s with orderItems := s.orderItems.set index ⟨item.barcode, item.quantity, v⟩ }
  | none => s

/-- User-visible events of the component. -/
inductive Ev where
  | add : Ev
  | remove (index : Nat) : Ev
  | input (index : Nat) (v : String) : Ev
  | blur (index : Nat) : Ev
  | editQuantity (index : Nat) (v : String) : Ev
  | editMrp (index : Nat) (v : String) : Ev
  | resolve (rid : Nat) (outcome : ReqOutcome) : Ev
  | submit : Ev
  | close : Ev
  | destroy : Ev

/-- One event step: ngModel writes compose with the bound handler. -/
def step (s : ModalState) : Ev → ModalState
  | .add => addOrderItem s
  | .remove index => removeOrderItem s index
  | .input index v => onBarcodeInput (setBarcode s index v) index
  | .blur index => onBarcodeBlur s index
  | .editQuantity index v => validateField (setQuantity s index v) "quantity" index
  | .editMrp index v => validateField (setMrp s index v) "mrp" index
  | .resolve rid outcome => resolveRequest s rid outcome
  | .submit => onSubmit s
  | .close => closeModal s
  | .destroy => ngOnDestroy s

/-- Run a list of events from a state. -/
def runEvents (s : ModalState) (evs : List Ev) : ModalState := evs.foldl step s

/-- True for the events the identity-stability claim quantifies over. -/
def isAddRemove : Ev → Bool
  | .add => true
  | .remove _ => true
  | _ => false

/-- Every existing row has exactly one entry in each validation dictionary
and no entry exists beyond the row list. -/
def StateInv (s : ModalState) : Prop :=
  ∀ k, ((s.barcodeValidationState k).isSome = true ↔ k < s.orderItems.length)
     ∧ ((s.validatedBarcodes k).isSome = true ↔ k < s.orderItems.length)

/-- Validation state written by the subscribe callbacks for a given
resolution outcome. -/
def outcomeValidationState : ReqOutcome → String
  | .success true => "valid"
  | .success false => "invalid"
  | .failure _ => "invalid"

/-- Modelled from the spec wording of C9: a quantity input is a plain
base-10 integer — digits only, no sign, no decimal point, no exponent, no
leading or trailing non-digit characters — whose value satisfies
`0 < quantity ≤ 999999`. -/
def specQuantityPlainInt (v : String) : Bool :=
  allDigits v.data && decide (0 < natOfDigits v.data) && decide (natOfDigits v.data ≤ 999999)

/-- Modelled from the spec wording of C6/C7: no two rows share a normalized
(trimmed, case-folded) barcode. -/
def specDuplicateFree (items : List OrderItemForm) : Bool :=
  decide (List.Pairwise (fun a b => jsToLower (jsTrim a.barcode) ≠ jsToLower (jsTrim b.barcode)) items)

/-- Reached by `[input 0 "A", editMrp 0 "1"]` from a fresh mount: one row
`{barcode "A", quantity "1", mrp "1"}` whose verification state is still
`pending` (the barcode was never committed). -/
def sC1 : ModalState := runEvents initState [.input 0 "A", .editMrp 0 "1"]

/-- The spec scenario of C2: barcode `"A"` committed (request 0), barcode
edited to `"B"` and committed again (request 1), then the responses arrive
out of order: request 1 first (`not found`), stale request 0 last
(`valid`). -/
def sC2 : ModalState := runEvents initState
  [.input 0 "A", .blur 0, .input 0 "B", .blur 0, .resolve 1 (.success false), .resolve 0 (.success true)]

/-- Same scenario, stopped right before the stale response arrives. -/
def sC2pre : ModalState := runEvents initState
  [.input 0 "A", .blur 0, .input 0 "B", .blur 0, .resolve 1 (.success false)]

/-- Barcode `"A"` committed (one in-flight check), then edited to `"B"`
without committing. -/
def sC3 : ModalState := runEvents initState [.input 0 "A", .blur 0, .input 0 "B"]

/-- Two rows `A`, `B`; `A`'s barcode committed (in-flight check for index
0), then row 0 (`A`) removed: row `B` now occupies index 0. -/
def sC5 : ModalState := runEvents initState [.add, .input 0 "A", .input 1 "B", .blur 0, .remove 0]

/-- Two rows whose barcodes `"A"` and `"a"` collide after case folding,
both carrying verification state `valid` and no recorded field errors (for
instance restored this way from a persisted draft by `loadFromStorage`). -/
def sC6 : ModalState :=
  { orderItems := [⟨"A", "1", "1"⟩, ⟨"a", "1", "1"⟩]
    barcodeValidationState := fun k => if k ≤ 1 then some "valid" else none
    validatedBarcodes := fun k => if k ≤ 1 then some true else none
    fieldErrors := emptyErrs
    showError := false
    errorMessage := ""
    storage := none
    destroyed := false
    pending := []
    nextReqId := 0
    emitted := []
    showChangeEvents := [] }

/-- A single shape-valid, duplicate-free, `valid`-state row. -/
def sC6ok : ModalState :=
  { sC6 with
    orderItems := [⟨"A", "1", "1"⟩]
    barcodeValidationState := fun k => if k = 0 then some "valid" else none
    validatedBarcodes := fun k => if k = 0 then some true else none }

/-- Rows `"ABC123"` and `" abc123 "`: the second input is flagged as a
duplicate of row 1. -/
def sC7 : ModalState := runEvents initState [.input 0 "ABC123", .add, .input 1 " abc123 "]

/-- The same state after the first row's barcode is changed to the
non-colliding `"XYZ999"`. -/
def sC7b : ModalState := step sC7 (.input 0 "XYZ999")

/-- Rows `[A(valid), B(pending), C(invalid)]` of the spec's
identity-stability example. -/
def sABC : ModalState :=
  { sC6 with
    orderItems := [⟨"A", "1", "1"⟩, ⟨"B", "1", "1"⟩, ⟨"C", "1", "1"⟩]
    barcodeValidationState := fun k =>
      if k = 0 then some "valid" else if k = 1 then some "pending" else
      if k = 2 then some "invalid" else none
    validatedBarcodes := fun k => if k ≤ 2 then some (k = 0) else none }

/-- A destroyed component with one request still unresolved. -/
def sDestroyed : ModalState :=
  ngOnDestroy { sC6 with pending := [⟨7, 0, "A"⟩] }

/-- A live state with two overlapping in-flight requests for row 0. -/
def sTwoPending : ModalState :=
  { sC6 with pending := [⟨3, 0, "X"⟩, ⟨4, 0, "Y"⟩], nextReqId := 5 }

lemma getElem?_splice {α : Type} (l : List α) (i j : ℕ) :
    (l.take i ++ l.drop (i + 1))[j]? = if j < i then l[j]? else l[j + 1]? := by
  rw [List.getElem?_append, List.getElem?_take, List.getElem?_drop, List.length_take]
  rcases Nat.lt_or_ge j (min i l.length) with h | h
  · rw [if_pos h, if_pos (by omega), if_pos (by omega)]
  · rw [if_neg (by omega)]
    split_ifs with h2
    · have hl : l.length ≤ j := by omega
      rw [List.getElem?_eq_none hl, List.getElem?_eq_none (by omega)]
    · rcases Nat.lt_or_ge i l.length with h3 | h3
      · congr 1
        omega
      · rw [List.getElem?_eq_none (by omega), List.getElem?_eq_none (by omega)]

lemma length_splice {α : Type} (l : List α) (i : ℕ) :
    (l.take i ++ l.drop (i + 1)).length = if i < l.length then l.length - 1 else l.length := by
  rw [List.length_append, List.length_take, List.length_drop]
  split_ifs with h <;> omega

lemma all_enum_iff {α : Type} (l : List α) (p : ℕ × α → Bool) :
    (l.enum.all p = true) ↔ ∀ (i : ℕ) (h : i < l.length), p (i, l.get ⟨i, h⟩) = true := by
  rw [List.all_eq_true]
  constructor
  · intro hall i hi
    refine hall _ ?_
    rw [List.mem_iff_getElem]
    exact ⟨i, by simpa using hi, by simp [List.getElem_enum]⟩
  · intro hall x hx
    rw [List.mem_iff_getElem] at hx
    obtain ⟨n, hn, heq⟩ := hx
    rw [List.getElem_enum] at heq
    have hn2 : n < l.length := by simpa using hn
    have := hall n hn2
    rw [← heq]
    simpa [List.get_eq_getElem] using this

lemma onBarcodeInput_orderItems (s : ModalState) (i : ℕ) :
    (onBarcodeInput s i).orderItems = s.orderItems := by
  unfold onBarcodeInput
  cases s.orderItems.get? i <;> dsimp only <;> split_ifs <;> rfl

lemma onBarcodeBlur_orderItems (s : ModalState) (i : ℕ) :
    (onBarcodeBlur s i).orderItems = s.orderItems := by
  unfold onBarcodeBlur
  cases s.orderItems.get? i <;> dsimp only <;> split_ifs <;> rfl

lemma validateField_orderItems (s : ModalState) (f : String) (i : ℕ) :
    (validateField s f i).orderItems = s.orderItems := by
  unfold validateField
  cases s.orderItems.get? i <;> dsimp only <;> split_ifs <;> rfl

lemma resolveRequest_orderItems (s : ModalState) (rid : ℕ) (o : ReqOutcome) :
    (resolveRequest s rid o).orderItems = s.orderItems := by
  unfold resolveRequest
  cases s.pending.find? (fun r => r.rid == rid) with
  | none => rfl
  | some req =>
    dsimp only
    split_ifs with hd
    · rfl
    · rcases o with b | m
      · cases b <;> rfl
      · rfl

lemma setBarcode_length (s : ModalState) (i : ℕ) (v : String) :
    (setBarcode s i v).orderItems.length = s.orderItems.length := by
  unfold setBarcode
  cases s.orderItems.get? i <;> simp

lemma setQuantity_length (s : ModalState) (i : ℕ) (v : String) :
    (setQuantity s i v).orderItems.length = s.orderItems.length := by
  unfold setQuantity
  cases s.orderItems.get? i <;> simp

lemma setMrp_length (s : ModalState) (i : ℕ) (v : String) :
    (setMrp s i v).orderItems.length = s.orderItems.length := by
  unfold setMrp
  cases s.orderItems.get? i <;> simp

lemma step_length_pos (s : ModalState) (e : Ev) (h : 1 ≤ s.orderItems.length) :
    1 ≤ (step s e).orderItems.length := by
  cases e with
  | add =>
      simp only [step, addOrderItem, saveToStorage, List.length_append, List.length_cons,
        List.length_nil]
      omega
  | remove i =>
      simp only [step, removeOrderItem]
      split_ifs with hg
      · simp only [saveToStorage, length_splice]
        split_ifs <;> omega
      · exact h
  | input i v => rw [step, onBarcodeInput_orderItems, setBarcode_length]; exact h
  | blur i => rw [step, onBarcodeBlur_orderItems]; exact h
  | editQuantity i v => rw [step, validateField_orderItems, setQuantity_length]; exact h
  | editMrp i v => rw [step, validateField_orderItems, setMrp_length]; exact h
  | resolve rid o => rw [step, resolveRequest_orderItems]; exact h
  | submit =>
      simp only [step, onSubmit]
      split_ifs
      · simp [closeModal, resetForm, saveToStorage]
      · exact h
  | close => simp [step, closeModal, resetForm, saveToStorage]
  | destroy => exact h

lemma runEvents_length_pos (evs : List Ev) :
    ∀ s : ModalState, 1 ≤ s.orderItems.length → 1 ≤ (runEvents s evs).orderItems.length := by
  induction evs with
  | nil => intro s h; exact h
  | cons e t ih => intro s h; exact ih (step s e) (step_length_pos s e h)

lemma stateInv_init : StateInv initState := by
  intro k
  constructor <;>
    simp [initState, ngOnInitState, initialValidationState, initialValidatedBarcodes,
      defaultOrderItem] <;> omega

lemma stateInv_add {s : ModalState} (hs : StateInv s) : StateInv (addOrderItem s) := by
  intro k
  simp only [addOrderItem, saveToStorage, List.length_append, List.length_cons, List.length_nil]
  constructor
  · split_ifs with hk
    · simp; omega
    · rw [(hs k).1]; omega
  · split_ifs with hk
    · simp; omega
    · rw [(hs k).2]; omega

lemma stateInv_remove {s : ModalState} (hs : StateInv s) (i : ℕ) :
    StateInv (removeOrderItem s i) := by
  unfold removeOrderItem
  split_ifs with hg
  · intro k
    simp only [saveToStorage, length_splice]
    constructor
    · split_ifs with hk hlen hlen <;>
        first
        | (rw [(hs k).1] <;> omega)
        | (rw [(hs (k+1)).1] <;> omega)
    · split_ifs with hk hlen hlen <;>
        first
        | (rw [(hs k).2] <;> omega)
        | (rw [(hs (k+1)).2] <;> omega)
  · exact hs

lemma runEvents_stateInv (evs : List Ev) :
    ∀ s : ModalState, (∀ e ∈ evs, isAddRemove e = true) → StateInv s →
      StateInv (runEvents s evs) := by
  induction evs with
  | nil => intro s _ hs; exact hs
  | cons e t ih =>
    intro s hall hs
    have he : isAddRemove e = true := hall e (List.mem_cons_self e t)
    have ht : ∀ x ∈ t, isAddRemove x = true := fun x hx => hall x (List.mem_cons_of_mem e hx)
    refine ih (step s e) ht ?_
    cases e with
    | add => exact stateInv_add hs
    | remove i => exact stateInv_remove hs i
    | input i v => simp [isAddRemove] at he
    | blur i => simp [isAddRemove] at he
    | editQuantity i v => simp [isAddRemove] at he
    | editMrp i v => simp [isAddRemove] at he
    | resolve rid o => simp [isAddRemove] at he
    | submit => simp [isAddRemove] at he
    | close => simp [isAddRemove] at he
    | destroy => simp [isAddRemove] at he

lemma removeOrderItem_assoc (s : ModalState) (i j : ℕ) (h : 1 < s.orderItems.length) :
    (removeOrderItem s i).orderItems[j]? =
      (if j < i then s.orderItems[j]? else s.orderItems[j + 1]?)
    ∧ (removeOrderItem s i).barcodeValidationState j =
      (if j < i then s.barcodeValidationState j else s.barcodeValidationState (j + 1))
    ∧ (removeOrderItem s i).validatedBarcodes j =
      (if j < i then s.validatedBarcodes j else s.validatedBarcodes (j + 1)) := by
  unfold removeOrderItem
  rw [if_pos h]
  exact ⟨getElem?_splice s.orderItems i j, rfl, rfl⟩

/-- C4: starting from a fresh mount, along every sequence of
`addOrderItem` / `removeOrderItem` operations each existing row has exactly
one entry in each validation dictionary and no entry outlives its row;
moreover a removal re-associates every surviving row with exactly its own
former validation state (rows before the removed index keep their entry,
rows after it move down together with their entry), as in the spec example
`[A(valid), B(pending), C(invalid)]` → remove first → `[B(pending),
C(invalid)]`. -/
theorem c4_identity_stability :
    (∀ evs : List Ev, (∀ e ∈ evs, isAddRemove e = true) →
      StateInv (runEvents initState evs))
    ∧ (∀ (s : ModalState) (i j : ℕ), 1 < s.orderItems.length →
        (removeOrderItem s i).orderItems[j]? =
          (if j < i then s.orderItems[j]? else s.orderItems[j + 1]?)
        ∧ (removeOrderItem s i).barcodeValidationState j =
          (if j < i then s.barcodeValidationState j else s.barcodeValidationState (j + 1)))
    ∧ ((removeOrderItem sABC 0).orderItems = [⟨"B", "1", "1"⟩, ⟨"C", "1", "1"⟩]
        ∧ (removeOrderItem sABC 0).barcodeValidationState 0 = some "pending"
        ∧ (removeOrderItem sABC 0).barcodeValidationState 1 = some "invalid"
        ∧ (removeOrderItem sABC 0).barcodeValidationState 2 = none) := by
  refine ⟨?_, ?_, by decide, by decide, by decide, by decide⟩
  · intro evs hall
    exact runEvents_stateInv evs initState hall stateInv_init
  · intro s i j h
    exact ⟨(removeOrderItem_assoc s i j h).1, (removeOrderItem_assoc s i j h).2.1⟩

/-- Witness for `c4_identity_stability` at concrete inputs. -/
theorem c4_identity_stability_witness :
    StateInv (runEvents initState [Ev.add, Ev.remove 0])
    ∧ (removeOrderItem sABC 0).barcodeValidationState 0 = sABC.barcodeValidationState 1 := by
  constructor
  · exact c4_identity_stability.1 [Ev.add, Ev.remove 0] (by decide)
  · exact ((c4_identity_stability.2.1 sABC 0 0 (by decide)).2 : _)

/-- C8: `removeOrderItem` on a sole remaining row is a strict no-op, and
from a fresh mount every event sequence (in particular every add/remove
sequence) keeps at least one row in the list. -/
theorem c8_minimum_row :
    (∀ evs : List Ev, 1 ≤ (runEvents initState evs).orderItems.length)
    ∧ (∀ (s : ModalState) (i : ℕ), s.orderItems.length = 1 → removeOrderItem s i = s) := by
  constructor
  · intro evs
    exact runEvents_length_pos evs initState (by decide)
  · intro s i h
    unfold removeOrderItem
    rw [if_neg (by omega)]

/-- Witness for `c8_minimum_row`: removing the sole initial row changes
nothing, and a longer add/remove sequence keeps the list non-empty. -/
theorem c8_minimum_row_witness :
    removeOrderItem initState 0 = initState
    ∧ 1 ≤ (runEvents initState [Ev.add, Ev.remove 1, Ev.remove 0]).orderItems.length := by
  exact ⟨c8_minimum_row.2 initState 0 (by decide), c8_minimum_row.1 _⟩

/-- C1 counterexample: from a fresh mount, set the single row to
`{barcode "A", quantity "1", mrp "1"}` without ever committing the barcode,
so its verification state is still `pending` and `isFormValid()` is false —
yet `onSubmit` emits the order anyway, because the source gates submission
on `validateForm()` (shape and duplicate rules only), not on
`isFormValid()`. -/
theorem c1_submit_counterexample :
    isFormValid sC1 = false
    ∧ sC1.barcodeValidationState 0 = some "pending"
    ∧ (onSubmit sC1).emitted = [[⟨"A", "1", "1"⟩]]
    ∧ (onSubmit sC1).orderItems = [defaultOrderItem]
    ∧ (onSubmit sC1).storage = some resetDraft := by
  refine ⟨by decide, by decide, by decide, by decide, ?_⟩
  show (onSubmit sC1).storage = some resetDraft
  rfl

/-- C1 amended: `onSubmit` emits exactly when `validateForm()` passes —
non-empty trimmed barcodes of length ≤ 50, no duplicate collision, positive
integer quantity and positive MRP (no upper bounds, no `isValidNumber`, and
no look at the per-row verification state).  On emission the trimmed rows
go out on `orderCreated` and the row store, the validation dictionaries and
the persisted draft are reset; otherwise nothing is emitted and rows,
dictionaries and draft are untouched. -/
theorem c1_submit_behavior (s : ModalState) :
    ((validateFormCheck s.orderItems).2 = true →
      (onSubmit s).emitted = s.emitted ++ [cleanOrderItems s.orderItems]
      ∧ (onSubmit s).orderItems = [defaultOrderItem]
      ∧ (onSubmit s).barcodeValidationState = initialValidationState
      ∧ (onSubmit s).validatedBarcodes = initialValidatedBarcodes
      ∧ (onSubmit s).storage = some resetDraft
      ∧ (onSubmit s).showChangeEvents = s.showChangeEvents ++ [false])
    ∧ ((validateFormCheck s.orderItems).2 = false →
      (onSubmit s).emitted = s.emitted
      ∧ (onSubmit s).orderItems = s.orderItems
      ∧ (onSubmit s).barcodeValidationState = s.barcodeValidationState
      ∧ (onSubmit s).validatedBarcodes = s.validatedBarcodes
      ∧ (onSubmit s).storage = s.storage) := by
  constructor
  · intro h
    simp [onSubmit, h, closeModal, resetForm, saveToStorage, resetDraft]
  · intro h
    simp [onSubmit, h, closeModal, resetForm, saveToStorage, resetDraft]

/-- Witness for `c1_submit_behavior` at the concrete state `sC1`. -/
theorem c1_submit_behavior_witness :
    (onSubmit sC1).emitted = sC1.emitted ++ [cleanOrderItems sC1.orderItems] :=
  ((c1_submit_behavior sC1).1 (by decide)).1

/-- C2 counterexample: the spec's exact stale-response scenario.  Row 0's
barcode `"A"` is committed (request 0), edited to `"B"` and committed again
(request 1).  The response for the later request 1 arrives first
(`not found`, state becomes `invalid`), then the stale response for
request 0 arrives (`valid`): the source applies it unconditionally, so the
final state is `valid` — the superseded request's outcome, not the most
recently issued one's. -/
theorem c2_stale_response_counterexample :
    sC2pre.barcodeValidationState 0 = some "invalid"
    ∧ sC2.barcodeValidationState 0 = some "valid"
    ∧ outcomeValidationState (.success false) = "invalid" := by
  exact ⟨by decide, by decide, by decide⟩

/-- C2 amended: there is no sequence gate.  While the component is alive,
the resolution of any request still in the in-flight list is applied to the
row index captured at issue time, regardless of any later-issued request
for the same row; the final state therefore reflects the last-arriving
applied response, and a stale response can overwrite a newer one. -/
theorem c2_no_sequence_gate (s : ModalState) (rid : ℕ) (o : ReqOutcome) (req : PendingReq)
    (hfind : s.pending.find? (fun r => r.rid == rid) = some req)
    (hdes : s.destroyed = false) :
    (resolveRequest s rid o).barcodeValidationState req.index =
      some (outcomeValidationState o) := by
  unfold resolveRequest
  rw [hfind]
  simp only [hdes, Bool.false_eq_true, if_false]
  rcases o with b | m
  · cases b <;> simp [saveToStorage, outcomeValidationState]
  · simp [saveToStorage, outcomeValidationState]

/-- Witness for `c2_no_sequence_gate`: resolving the older of two
overlapping requests for row 0 still writes its outcome. -/
theorem c2_no_sequence_gate_witness :
    (resolveRequest sTwoPending 3 (.success true)).barcodeValidationState 0 = some "valid" :=
  c2_no_sequence_gate sTwoPending 3 (.success true) ⟨3, 0, "X"⟩ (by decide) (by decide)

lemma setBarcode_fieldErrors (s : ModalState) (i : ℕ) (v : String) :
    (setBarcode s i v).fieldErrors = s.fieldErrors := by
  unfold setBarcode; cases s.orderItems.get? i <;> rfl

lemma setBarcode_bvs (s : ModalState) (i : ℕ) (v : String) :
    (setBarcode s i v).barcodeValidationState = s.barcodeValidationState := by
  unfold setBarcode; cases s.orderItems.get? i <;> rfl

lemma setBarcode_validated (s : ModalState) (i : ℕ) (v : String) :
    (setBarcode s i v).validatedBarcodes = s.validatedBarcodes := by
  unfold setBarcode; cases s.orderItems.get? i <;> rfl

lemma setBarcode_pending (s : ModalState) (i : ℕ) (v : String) :
    (setBarcode s i v).pending = s.pending := by
  unfold setBarcode; cases s.orderItems.get? i <;> rfl

lemma setBarcode_nextReqId (s : ModalState) (i : ℕ) (v : String) :
    (setBarcode s i v).nextReqId = s.nextReqId := by
  unfold setBarcode; cases s.orderItems.get? i <;> rfl

/-- C3 counterexample: row 0's barcode `"A"` is committed (state
`checking`, one in-flight request), then the barcode text changes to `"B"`
via `onBarcodeInput`.  The state is not reset to `pending` (it stays
`checking`), the outstanding check is not cancelled (still in flight), and
its later resolution still mutates the row's state. -/
theorem c3_input_counterexample :
    sC3.barcodeValidationState 0 = some "checking"
    ∧ sC3.pending = [⟨0, 0, "A"⟩]
    ∧ (resolveRequest sC3 0 (.success true)).barcodeValidationState 0 = some "valid" := by
  exact ⟨by decide, by decide, by decide⟩

/-- C3 amended: a barcode edit (`ngModel` write followed by
`onBarcodeInput`) never touches the verification state, the in-flight
request list or the request counter; it only recomputes the edited row's
own barcode error (set to a duplicate message on collision, cleared
otherwise), leaving every other error entry unchanged. -/
theorem c3_input_behavior (s : ModalState) (i : ℕ) (v : String) :
    (step s (Ev.input i v)).barcodeValidationState = s.barcodeValidationState
    ∧ (step s (Ev.input i v)).validatedBarcodes = s.validatedBarcodes
    ∧ (step s (Ev.input i v)).pending = s.pending
    ∧ (step s (Ev.input i v)).nextReqId = s.nextReqId
    ∧ (∀ f j, ¬(f = "barcode" ∧ j = i) →
        (step s (Ev.input i v)).fieldErrors f j = s.fieldErrors f j) := by
  have hfe : ∀ f j, ¬(f = "barcode" ∧ j = i) →
      (step s (Ev.input i v)).fieldErrors f j = s.fieldErrors f j := by
    intro f j hnot
    have hij : (f = "barcode" && j == i) = false := by
      rcases Decidable.em (f = "barcode") with hf | hf
      · rcases Decidable.em (j = i) with hj | hj
        · exact absurd ⟨hf, hj⟩ hnot
        · simp [hf, hj]
      · simp [hf]
    simp only [step]
    unfold onBarcodeInput
    cases hg : (setBarcode s i v).orderItems.get? i with
    | none => simp [setBarcode_fieldErrors]
    | some item =>
      dsimp only
      split_ifs <;>
        simp [saveToStorage, setFieldError, clearFieldError, hij, setBarcode_fieldErrors]
  refine ⟨?_, ?_, ?_, ?_, hfe⟩ <;>
    · simp only [step]
      unfold onBarcodeInput
      cases hg : (setBarcode s i v).orderItems.get? i with
      | none =>
        first
        | exact setBarcode_bvs ..
        | exact setBarcode_validated ..
        | exact setBarcode_pending ..
        | exact setBarcode_nextReqId ..
      | some item =>
        dsimp only
        split_ifs <;>
          first
          | exact setBarcode_bvs ..
          | exact setBarcode_validated ..
          | exact setBarcode_pending ..
          | exact setBarcode_nextReqId ..

/-- Witness for `c3_input_behavior` at the concrete state `sC3`. -/
theorem c3_input_behavior_witness :
    (step sC3 (Ev.input 0 "B")).pending = sC3.pending
    ∧ (step sC3 (Ev.input 0 "B")).fieldErrors "mrp" 0 = sC3.fieldErrors "mrp" 0 :=
  ⟨(c3_input_behavior sC3 0 "B").2.2.1,
   (c3_input_behavior sC3 0 "B").2.2.2.2 "mrp" 0 (by decide)⟩

/-- C5 counterexample: rows `[A, B]`, a check in flight for row index 0
(`A`), then row 0 is removed so `B` moves to index 0.  The outstanding
request is not abandoned, and its resolution writes `valid` into index 0 —
mutating the state of the surviving row `B`, which was never checked. -/
theorem c5_removal_counterexample :
    sC5.orderItems = [⟨"B", "1", "0"⟩]
    ∧ sC5.barcodeValidationState 0 = some "pending"
    ∧ sC5.pending = [⟨0, 0, "A"⟩]
    ∧ (resolveRequest sC5 0 (.success true)).barcodeValidationState 0 = some "valid" := by
  exact ⟨by decide, by decide, by decide, by decide⟩

/-- C5 amended: after component teardown (`ngOnDestroy`), every resolution
is a no-op on rows, dictionaries, errors and draft — `takeUntil(destroy$)`
discards it.  Row removal, however, abandons nothing: the in-flight list is
untouched by `removeOrderItem`, and a later resolution writes to the row
index captured at issue time (see the counterexample for the resulting
cross-row mutation). -/
theorem c5_cancellation_behavior :
    (∀ (s : ModalState) (rid : ℕ) (o : ReqOutcome), s.destroyed = true →
      (resolveRequest s rid o).barcodeValidationState = s.barcodeValidationState
      ∧ (resolveRequest s rid o).validatedBarcodes = s.validatedBarcodes
      ∧ (resolveRequest s rid o).fieldErrors = s.fieldErrors
      ∧ (resolveRequest s rid o).orderItems = s.orderItems
      ∧ (resolveRequest s rid o).storage = s.storage)
    ∧ (∀ (s : ModalState) (i : ℕ), (removeOrderItem s i).pending = s.pending)
    ∧ (∀ s : ModalState, (ngOnDestroy s).destroyed = true) := by
  refine ⟨?_, ?_, fun s => rfl⟩
  · intro s rid o h
    unfold resolveRequest
    cases s.pending.find? (fun r => r.rid == rid) with
    | none => exact ⟨rfl, rfl, rfl, rfl, rfl⟩
    | some req =>
      dsimp only
      rw [if_pos h]
      exact ⟨rfl, rfl, rfl, rfl, rfl⟩
  · intro s i
    unfold removeOrderItem
    split_ifs <;> rfl

/-- Witness for `c5_cancellation_behavior` at a destroyed component with an
unresolved request. -/
theorem c5_cancellation_behavior_witness :
    (resolveRequest sDestroyed 7 (.success true)).barcodeValidationState =
      sDestroyed.barcodeValidationState
    ∧ (removeOrderItem sC5 0).pending = sC5.pending :=
  ⟨(c5_cancellation_behavior.1 sDestroyed 7 (.success true) rfl).1,
   c5_cancellation_behavior.2.1 sC5 0⟩

/-- C7 counterexample: rows `"ABC123"` and `" abc123 "` collide (row 1 is
flagged with the duplicate error naming row 1); changing the *first* row's
barcode to the non-colliding `"XYZ999"` clears only the edited row's error:
the collision is gone from the data, yet row 1's recorded duplicate error
persists, so the conflict is not cleared for both rows. -/
theorem c7_duplicate_counterexample :
    sC7.fieldErrors "barcode" 1 = some "Duplicate barcode found at row 1"
    ∧ findDuplicateBarcode sC7b.orderItems (jsTrim " abc123 ") 1 = -1
    ∧ sC7b.fieldErrors "barcode" 1 = some "Duplicate barcode found at row 1"
    ∧ sC7b.fieldErrors "barcode" 0 = none := by
  exact ⟨by decide, by decide, by decide, by decide⟩

/-- C7 amended: duplicate detection is trim- and case-insensitive and tags
the error with the colliding row's 1-based position, but `onBarcodeInput`
recomputes only the *edited* row's flag: that row's barcode error is set
exactly when its trimmed barcode collides with another row, and every other
error entry (in particular the other colliding row's) is left untouched, so
clearing a conflict on one row does not clear a stale flag recorded on the
other. -/
theorem c7_duplicate_flagging (s : ModalState) (i : ℕ) (hi : i < s.orderItems.length)
    (hb : jsTrim (s.orderItems.get ⟨i, hi⟩).barcode ≠ "") :
    ((onBarcodeInput s i).fieldErrors "barcode" i =
      (if findDuplicateBarcode s.orderItems (jsTrim (s.orderItems.get ⟨i, hi⟩).barcode) i ≠ -1
       then some (dupMsg (findDuplicateBarcode s.orderItems
              (jsTrim (s.orderItems.get ⟨i, hi⟩).barcode) i))
       else none))
    ∧ (∀ f j, ¬(f = "barcode" ∧ j = i) →
        (onBarcodeInput s i).fieldErrors f j = s.fieldErrors f j) := by
  have hget : s.orderItems.get? i = some (s.orderItems.get ⟨i, hi⟩) := by
    rw [List.get?_eq_getElem?, List.getElem?_eq_getElem hi]
    simp [List.get_eq_getElem]
  constructor
  · unfold onBarcodeInput
    rw [hget]
    dsimp only
    rw [if_neg hb]
    split_ifs with hdup
    · simp [saveToStorage, setFieldError]
    · simp [saveToStorage, clearFieldError]
  · intro f j hnot
    have hij : (f = "barcode" && j == i) = false := by
      rcases Decidable.em (f = "barcode") with hf | hf
      · rcases Decidable.em (j = i) with hj | hj
        · exact absurd ⟨hf, hj⟩ hnot
        · simp [hf, hj]
      · simp [hf]
    unfold onBarcodeInput
    rw [hget]
    dsimp only
    split_ifs <;> simp [saveToStorage, setFieldError, clearFieldError, hij]

/-- Witness for `c7_duplicate_flagging`: the second row of `sC7` collides
with row 0 and is flagged accordingly. -/
theorem c7_duplicate_flagging_witness :
    (onBarcodeInput sC7 1).fieldErrors "barcode" 1 =
      (if findDuplicateBarcode sC7.orderItems (jsTrim (sC7.orderItems.get ⟨1, by decide⟩).barcode) 1 ≠ -1
       then some (dupMsg (findDuplicateBarcode sC7.orderItems
              (jsTrim (sC7.orderItems.get ⟨1, by decide⟩).barcode) 1))
       else none) :=
  (c7_duplicate_flagging sC7 1 (by decide) (by decide)).1

lemma isSome_false_iff {α : Type} (o : Option α) : (o.isSome = false) ↔ o = none := by
  cases o <;> simp

/-- C6 counterexample: two rows with barcodes `"A"` and `"a"` collide after
case folding, yet with both verification states `valid` and no *recorded*
field errors (as a restored draft yields) `isFormValid()` returns true:
the source consults only recorded errors, it never re-runs duplicate
detection, so "no duplicate collision" is not part of what it checks. -/
theorem c6_validity_counterexample :
    isFormValid sC6 = true ∧ specDuplicateFree sC6.orderItems = false := by
  exact ⟨by decide, by decide⟩

/-- C6 amended: `isFormValid()` is true iff every row simultaneously passes
the shape rules (non-empty trimmed barcode of length ≤ 50, integer quantity
with `0 < q ≤ 999999`, price with `0 < p ≤ 999999`, both surviving
`isValidNumber`), has no *recorded* field error for barcode, quantity or
mrp, and has verification state exactly `valid`.  Duplicate collisions
affect the result only through a recorded barcode error, not directly. -/
theorem c6_isFormValid_iff (s : ModalState) :
    isFormValid s = true ↔
      ∀ (i : ℕ) (h : i < s.orderItems.length),
        jsTrim (s.orderItems.get ⟨i, h⟩).barcode ≠ ""
        ∧ (jsTrim (s.orderItems.get ⟨i, h⟩).barcode).data.length ≤ 50
        ∧ jsGtInt (jsToNumberStr (s.orderItems.get ⟨i, h⟩).quantity) 0 = true
        ∧ jsIsInteger (jsToNumberStr (s.orderItems.get ⟨i, h⟩).quantity) = true
        ∧ jsLeInt (jsToNumberStr (s.orderItems.get ⟨i, h⟩).quantity) 999999 = true
        ∧ jsGtInt (jsToNumberStr (s.orderItems.get ⟨i, h⟩).mrp) 0 = true
        ∧ jsLeInt (jsToNumberStr (s.orderItems.get ⟨i, h⟩).mrp) 999999 = true
        ∧ isValidNumber (s.orderItems.get ⟨i, h⟩).quantity = true
        ∧ isValidNumber (s.orderItems.get ⟨i, h⟩).mrp = true
        ∧ s.fieldErrors "barcode" i = none
        ∧ s.fieldErrors "quantity" i = none
        ∧ s.fieldErrors "mrp" i = none
        ∧ s.barcodeValidationState i = some "valid" := by
  unfold isFormValid
  rw [all_enum_iff]
  refine forall_congr' fun i => forall_congr' fun h => ?_
  simp only [Bool.and_eq_true, Bool.not_eq_true', beq_iff_eq, beq_eq_false_iff_ne,
    decide_eq_true_eq, hasFieldError, isSome_false_iff, ne_eq, and_assoc]

/-- Witness for `c6_isFormValid_iff`: a single shape-valid, duplicate-free,
`valid`-state row makes the form valid. -/
theorem c6_isFormValid_iff_witness : isFormValid sC6ok = true :=
  (c6_isFormValid_iff sC6ok).mpr (fun i h => by
    have hlen : sC6ok.orderItems.length = 1 := by decide
    have hi : i = 0 := by omega
    subst hi
    have hget : sC6ok.orderItems.get ⟨0, h⟩ = ⟨"A", "1", "1"⟩ := rfl
    rw [hget]
    exact ⟨by decide, by decide, by decide, by decide, by decide, by decide, by decide,
      by decide, by decide, by decide, by decide, by decide, by decide⟩)

/-- C9 counterexample: `validateField` accepts the quantity inputs `"12.0"`
(decimal-point notation) and `" 12 "` (surrounding whitespace), both of
which the claim rule — plain base-10 integer only, decimals and
leading/trailing non-digit characters rejected — rejects. -/
theorem c9_quantity_counterexample :
    validateFieldQuantity "12.0" = none
    ∧ specQuantityPlainInt "12.0" = false
    ∧ validateFieldQuantity " 12 " = none
    ∧ specQuantityPlainInt " 12 " = false := by
  exact ⟨by decide, by decide, by decide, by decide⟩

/-- C9 amended: the quantity check accepts a raw value iff it is non-empty,
`Number(...)` converts it to a finite value `m / 10 ^ e` that is a positive
integer at most 999999, and `isValidNumber` passes (no `e`/`E` marker and a
finite `parseFloat`).  The MRP check is the same minus integrality.
JavaScript `Number` conversion — not a plain-digit parse — defines
acceptance, so decimal-point forms of integers (`"12.0"`), surrounding
whitespace (`" 12 "`) and even radix literals (`"0x10"`) are accepted. -/
theorem c9_validateField_iff (v : String) :
    (validateFieldQuantity v = none ↔
      v ≠ "" ∧ isValidNumber v = true
      ∧ ∃ m : ℤ, ∃ e : ℕ, jsToNumberStr v = .num m e
          ∧ 0 < m ∧ m ≤ 999999 * 10 ^ e ∧ m % (10 : ℤ) ^ e = 0)
    ∧ (validateFieldMrp v = none ↔
      v ≠ "" ∧ isValidNumber v = true
      ∧ ∃ m : ℤ, ∃ e : ℕ, jsToNumberStr v = .num m e
          ∧ 0 < m ∧ m ≤ 999999 * 10 ^ e) := by
  unfold validateFieldQuantity validateFieldMrp
  rcases h : jsToNumberStr v with _ | b | ⟨m, e⟩
  case nan =>
    constructor
    · simp [jsIsNaN]
    · simp [jsIsNaN]
  case inf =>
    cases b
    case false =>
      constructor
      · simp [jsIsNaN, jsLeInt]
      · simp [jsIsNaN, jsLeInt]
    case true =>
      constructor
      · simp [jsIsNaN, jsLeInt, jsIsInteger]
      · dsimp only
        split_ifs with h1 h2 <;> simp_all [jsIsNaN, jsLeInt, jsGtInt]
  case num =>
    constructor
    · dsimp only
      split_ifs with h1 h2 <;>
        simp_all [jsIsNaN, jsLeInt, jsIsInteger, jsGtInt, not_or, Int.not_le, Int.not_lt]
      · intro hv hval hm hle
        rcases h1 with ((a | b) | c) | d
        · exact absurd a hv
        · exact absurd hm (by omega)
        · exact c
        · simp [d] at hval
      · exact ⟨m, e, ⟨rfl, rfl⟩, by tauto, h2, by tauto⟩
    · dsimp only
      split_ifs with h1 h2 <;>
        simp_all [jsIsNaN, jsLeInt, jsIsInteger, jsGtInt, not_or, Int.not_le, Int.not_lt]
      · intro hv hval hm
        rcases h1 with (a | b) | c
        · exact absurd a hv
        · exact absurd hm (by omega)
        · simp [c] at hval
      · exact ⟨m, e, ⟨rfl, rfl⟩, by tauto, h2⟩

/-- Witness for `c9_validateField_iff` at accepted concrete inputs. -/
theorem c9_validateField_iff_witness :
    validateFieldQuantity "5" = none ∧ validateFieldMrp "10.00" = none :=
  ⟨(c9_validateField_iff "5").1.mpr
      ⟨by decide, by decide, 5, 0, by decide, by decide, by decide, by decide⟩,
   (c9_validateField_iff "10.00").2.mpr
      ⟨by decide, by decide, 1000, 2, by decide, by decide, by decide⟩⟩

/-- C10: `closeModal` — reached from backdrop clicks whose target is the
backdrop itself — emits `showChange(false)` and resets the form to the
single default row `{barcode "", quantity "1" (the numeric literal 1),
mrp "0" (the numeric literal 0)}` with validation state `pending`, clears
all field errors, and immediately overwrites the persisted draft with this
reset snapshot; mounting a component on that stored draft therefore
restores only the default row, so a dismissed-but-unsubmitted draft is not
recoverable. -/
theorem c10_close_resets_draft :
    (∀ s : ModalState,
      (closeModal s).orderItems = [defaultOrderItem]
      ∧ (closeModal s).barcodeValidationState = initialValidationState
      ∧ (closeModal s).validatedBarcodes = initialValidatedBarcodes
      ∧ (closeModal s).fieldErrors = emptyErrs
      ∧ (closeModal s).storage = some resetDraft
      ∧ (closeModal s).showChangeEvents = s.showChangeEvents ++ [false])
    ∧ (ngOnInitState (some resetDraft)).orderItems = [defaultOrderItem]
    ∧ (ngOnInitState (some resetDraft)).barcodeValidationState = initialValidationState
    ∧ (∀ s : ModalState, onBackdropClick s true = closeModal s) :=
  ⟨fun _ => ⟨rfl, rfl, rfl, rfl, rfl, rfl⟩, rfl, rfl, fun _ => rfl⟩

example : jsToNumberStr "12.0" = .num 120 1 := by decide
example : jsToNumberStr " 12 " = .num 12 0 := by decide
example : jsToNumberStr "1e3" = .num 1000 0 := by decide
example : jsToNumberStr "0x10" = .num 16 0 := by decide
example : jsToNumberStr "12abc" = .nan := by decide
example : jsToNumberStr "" = .num 0 0 := by decide
example : jsToNumberStr "Infinity" = .inf true := by decide
example : jsToNumberStr "1.2.3" = .nan := by decide
example : jsParseFloat "12.0" = .num 120 1 := by decide
example : jsParseFloat "0x10" = .num 0 0 := by decide
example : jsParseFloat "1e5x" = .num 100000 0 := by decide
example : jsParseFloat "1e+" = .num 1 0 := by decide
example : jsParseFloat "." = .nan := by decide
example : isValidNumber "12.0" = true := by decide
example : isValidNumber "1e3" = false := by decide
example : isValidNumber "Infinity" = false := by decide
example : validateFieldQuantity "12.5" = some "Quantity must be a positive whole number" := by decide
example : validateFieldQuantity "0" = some "Quantity must be a positive whole number" := by decide
example : validateFieldQuantity "1000000" = some "Quantity cannot exceed 999,999" := by decide
example : validateFieldMrp "10.00" = none := by decide
example : validateFieldMrp "-5" = some "MRP must be a positive number" := by decide
example : validateFieldMrp "1.2.3" = some "MRP must be a positive number" := by decide
example : sC2.pending = [] := by decide
example : sC7.orderItems = [⟨"ABC123", "1", "0"⟩, ⟨" abc123 ", "1", "0"⟩] := by decide
